import Mathlib

/-!
Verification of the CL7206C2 RFID toolkit (wire codec, tag parsing,
config image, session bridge) against its natural-language specification.

Bytes are modelled as natural numbers (`Nat`), with `&&& 0xFF`-style masks
written exactly where the Python source writes them; byte strings are
`List Nat`.  Fallible operations return `Option`/`Except`.
-/

namespace CL7206C2

/-! ## CRC-16 (tools/cl7206c2_client.py lines 71-95, tools/crc16_verified.py) -/

/-- One iteration of the CRC table-generation inner loop:
`if crc & 0x8000: crc = (crc << 1) ^ poly else: crc <<= 1; crc &= 0xFFFF`. -/
def crcStep (poly crc : Nat) : Nat :=
  if crc &&& 0x8000 ≠ 0 then ((crc <<< 1) ^^^ poly) &&& 0xFFFF
  else (crc <<< 1) &&& 0xFFFF

/-- Table entry for byte `i`: start from `i << 8` and run the inner loop 8 times
(`_generate_crc16_table` / `generate_crc16_table`). -/
def crcEntry (poly i : Nat) : Nat :=
  (crcStep poly)^[8] (i <<< 8)

/-- The 256-entry lookup table generated with polynomial 0x8005. -/
def crc16Table : List Nat :=
  (List.range 256).map (crcEntry 0x8005)

/-- `crc16(data, init)`:
`crc = ((crc << 8) & 0xFFFF) ^ table[((crc >> 8) ^ byte) & 0xFF]` per byte. -/
def crc16 (init : Nat) (data : List Nat) : Nat :=
  data.foldl
    (fun crc b => ((crc <<< 8) &&& 0xFFFF) ^^^
      crc16Table.getD (((crc >>> 8) ^^^ b) &&& 0xFF) 0)
    init

/-! ## Packet builder and parser (tools/cl7206c2_client.py lines 102-177) -/

def HEADER : Nat := 0xAA

/-- `build_packet(cmd, sub, data)`: emits
`[0xAA][cmd][sub][len_hi][len_lo][data...][crc_hi][crc_lo]`, CRC over
`cmd + sub + len + data` (the 0xAA sync byte is excluded). -/
def build_packet (cmd sub : Nat) (data : List Nat) : List Nat :=
  let data_len := data.length
  let len_hi := (data_len >>> 8) &&& 0xFF
  let len_lo := data_len &&& 0xFF
  let crc_payload := [cmd, sub, len_hi, len_lo] ++ data
  let crc := crc16 0 crc_payload
  HEADER :: crc_payload ++ [crc >>> 8, crc &&& 0xFF]

/-- The body of `parse_packet` once the buffer has been aligned on a sync
byte: read `cmd`/`sub`/big-endian length, demand the complete frame, and
return the triple.  The source computes the received and calculated CRC here
as well, but on mismatch it only prints a diagnostic (lines 151-163 of
cl7206c2_client.py) and still falls through to `return (cmd, sub, payload)`,
so the CRC comparison does not affect the returned value. -/
def parse_tail (data : List Nat) : Option (Nat × Nat × List Nat) :=
  if data.length < 7 then none
  else
    let cmd := data.getD 1 0
    let sub := data.getD 2 0
    let data_len := (data.getD 3 0) <<< 8 ||| data.getD 4 0
    if data.length < 5 + data_len + 2 then none
    else some (cmd, sub, (data.drop 5).take data_len)

/-- `parse_packet(data)`: returns `(cmd, sub, payload)` or `None`.  A
too-short buffer, a buffer without 0xAA, or a buffer whose suffix from the
first 0xAA is incomplete gives `None`. -/
def parse_packet (data0 : List Nat) : Option (Nat × Nat × List Nat) :=
  if data0.length < 7 then none
  else if data0.getD 0 0 = HEADER then parse_tail data0
  else
    -- `idx = data.find(0xAA); if idx < 0: return None; data = data[idx:]`
    let t := data0.dropWhile (fun b => b ≠ HEADER)
    if t.length = 0 then none else parse_tail t

/-- `verify_packet(data)`: `True` iff the buffer starts with 0xAA, holds a
complete frame, and the trailing CRC field equals `crc16(data[1:5+len])`. -/
def verify_packet (data : List Nat) : Bool :=
  if data.length < 7 ∨ data.getD 0 0 ≠ HEADER then false
  else
    let data_len := (data.getD 3 0) <<< 8 ||| data.getD 4 0
    if data.length < 5 + data_len + 2 then false
    else
      let received := (data.getD (5 + data_len) 0) <<< 8 ||| data.getD (5 + data_len + 1) 0
      received == crc16 0 ((data.drop 1).take (4 + data_len))

/-- Sanity anchor: the get-MAC request frame produced by `build_packet`. -/
example : build_packet 0x01 0x06 [] = [0xAA, 0x01, 0x06, 0x00, 0x00, 0x94, 0x7B] := by decide

/-! ### Parser lemmas -/

/-- Splitting a 16-bit value into the two length bytes written by
`build_packet` and recombining them as `parse_packet` does is the identity. -/
lemma byte_recombine {n : Nat} (h : n < 65536) :
    (((n >>> 8) &&& 0xFF) <<< 8) ||| (n &&& 0xFF) = n := by
  have h255 : (0xFF : Nat) = 2 ^ 8 - 1 := by norm_num
  apply Nat.eq_of_testBit_eq
  intro i
  simp only [Nat.testBit_or, Nat.testBit_shiftLeft, Nat.testBit_and,
    Nat.testBit_shiftRight, h255, Nat.testBit_two_pow_sub_one]
  rcases lt_or_ge i 8 with hi | hi
  · have h8 : ¬ (8 ≤ i) := by omega
    simp [h8, hi, ge_iff_le]
  · rcases lt_or_ge i 16 with hi2 | hi2
    · have h8 : 8 ≤ i := hi
      have hadd : 8 + (i - 8) = i := by omega
      have hlt : i - 8 < 8 := by omega
      have hnlt : ¬ (i < 8) := by omega
      simp [h8, hadd, hlt, hnlt, ge_iff_le]
    · have hpow : (65536 : Nat) ≤ 2 ^ i := by
        calc (65536 : Nat) = 2 ^ 16 := by norm_num
        _ ≤ 2 ^ i := Nat.pow_le_pow_right (by norm_num) hi2
      have hz : n.testBit i = false := Nat.testBit_lt_two_pow (lt_of_lt_of_le h hpow)
      have hnlt : ¬ (i < 8) := by omega
      have hadd : 8 + (i - 8) = i := by omega
      simp [hz, hnlt, hadd]

/-- `parse_tail` on a buffer that holds a complete frame returns the triple
read from the header bytes; the CRC field is not consulted for the return
value (the source only logs on mismatch). -/
lemma parse_tail_complete (b1 b2 b3 b4 : Nat) (rest : List Nat)
    (h : (b3 <<< 8 ||| b4) + 2 ≤ rest.length) :
    parse_tail (HEADER :: b1 :: b2 :: b3 :: b4 :: rest) =
      some (b1, b2, rest.take (b3 <<< 8 ||| b4)) := by
  unfold parse_tail
  simp only [List.getD_cons_zero, List.getD_cons_succ, List.length_cons,
    List.drop_succ_cons, List.drop_zero]
  rw [if_neg (by omega), if_neg (by omega)]

/-- `parse_tail` returns `None` when the buffer is shorter than the complete
frame its header declares (this also covers buffers shorter than 7 bytes). -/
lemma parse_tail_short (t : List Nat)
    (h : t.length < 7 + ((t.getD 3 0) <<< 8 ||| t.getD 4 0)) :
    parse_tail t = none := by
  unfold parse_tail
  by_cases h7 : t.length < 7
  · rw [if_pos h7]
  · rw [if_neg h7, if_pos (by omega)]

/-- `parse_packet` on any buffer that starts with the sync byte and holds a
complete frame returns the triple read from the header bytes. -/
lemma parse_complete (b1 b2 b3 b4 : Nat) (rest : List Nat)
    (h : (b3 <<< 8 ||| b4) + 2 ≤ rest.length) :
    parse_packet (HEADER :: b1 :: b2 :: b3 :: b4 :: rest) =
      some (b1, b2, rest.take (b3 <<< 8 ||| b4)) := by
  unfold parse_packet
  have hlen7 : ¬ ((HEADER :: b1 :: b2 :: b3 :: b4 :: rest).length < 7) := by
    simp only [List.length_cons]; omega
  rw [if_neg hlen7]
  rw [if_pos (show (HEADER :: b1 :: b2 :: b3 :: b4 :: rest).getD 0 0 = HEADER from rfl)]
  exact parse_tail_complete b1 b2 b3 b4 rest h

/-- Round-trip core: parsing a built packet recovers the triple, for any
payload whose length fits the 16-bit length field. -/
lemma parse_build (cmd sub : Nat) (p : List Nat) (hlen : p.length < 65536) :
    parse_packet (build_packet cmd sub p) = some (cmd, sub, p) := by
  have hbuf : build_packet cmd sub p =
      HEADER :: cmd :: sub :: ((p.length >>> 8) &&& 0xFF) :: (p.length &&& 0xFF) ::
        (p ++ [crc16 0 ([cmd, sub, (p.length >>> 8) &&& 0xFF, p.length &&& 0xFF] ++ p) >>> 8,
               crc16 0 ([cmd, sub, (p.length >>> 8) &&& 0xFF, p.length &&& 0xFF] ++ p) &&& 0xFF]) := by
    simp [build_packet]
  rw [hbuf, parse_complete]
  · rw [byte_recombine hlen, List.take_left']
    rfl
  · rw [byte_recombine hlen]
    simp

/-- The two length bytes a built packet carries at offsets 3 and 4. -/
lemma build_packet_header_bytes (cmd sub : Nat) (p : List Nat) :
    (build_packet cmd sub p).getD 3 0 = (p.length >>> 8) &&& 0xFF ∧
    (build_packet cmd sub p).getD 4 0 = p.length &&& 0xFF := by
  constructor <;> simp [build_packet]

/-- `parse_packet` on a buffer of length ≥ 7, expressed through the suffix
starting at the first 0xAA (`dropWhile (· ≠ HEADER)`).  When the buffer
already starts with 0xAA that suffix is the whole buffer. -/
lemma parse_packet_eq_tail (data : List Nat) (h7 : ¬ data.length < 7) :
    parse_packet data =
      (if (data.dropWhile (fun b => b ≠ HEADER)).length = 0 then none
       else parse_tail (data.dropWhile (fun b => b ≠ HEADER))) := by
  unfold parse_packet
  rw [if_neg h7]
  by_cases h0 : data.getD 0 0 = HEADER
  · rw [if_pos h0]
    obtain ⟨a, l, rfl⟩ : ∃ a l, data = a :: l := by
      cases data with
      | nil => exact absurd (by simp) h7
      | cons a l => exact ⟨a, l, rfl⟩
    have ha : a = HEADER := by simpa using h0
    subst ha
    have hdw : (HEADER :: l).dropWhile (fun b => b ≠ HEADER) = HEADER :: l := by
      simp [List.dropWhile_cons]
    rw [hdw, if_neg (by simp)]
  · rw [if_neg h0]

/-! ## Tag notification parsing (web/server.py lines 766-819) -/

/-- The fields `_parse_tag_notification` can put into its result dict.
The source stores `epc` as an upper-case hex string and `pc`/`sub_cmd` as
`0x%X` strings; we keep the underlying bytes/numbers, which those strings
render injectively.  A missing dict key is `none`. -/
structure TagInfo where
  count : Nat
  raw : List Nat
  pc : Option Nat
  epc : Option (List Nat)
  ant_num : Option Nat
  sub_ant : Option Nat
  antenna : Option Nat
  rssi : Option Nat
  sub_cmd : Nat

/-- The `while tlv_offset < len(data)` loop of `_parse_tag_notification`.
`fuel` only bounds the number of iterations; every iteration advances
`off` by at least 2, so `fuel = data.length` (as passed below) is never
exhausted before the loop's own exit conditions fire. -/
def tlvWalk (data : List Nat) : Nat → Nat → TagInfo → TagInfo
  | 0, _, st => st
  | fuel + 1, off, st =>
    if off < data.length then
      let t := data.getD off 0
      if t = 0x01 ∧ off + 2 < data.length then
        let an := data.getD (off + 1) 0
        let sa := if off + 3 ≤ data.length then data.getD (off + 2) 0 else 0
        tlvWalk data fuel (off + 3)
          { st with ant_num := some an, sub_ant := some sa,
                    antenna := some (an * 2 + sa + 1) }
      else if t = 0x02 ∧ off + 2 < data.length then
        tlvWalk data fuel (off + 3) { st with rssi := some (data.getD (off + 1) 0) }
      else if t = 0x06 ∧ off + 1 < data.length then
        let sa := data.getD (off + 1) 0
        let st1 := { st with sub_ant := some sa }
        let st2 :=
          match st.ant_num with
          | some an => { st1 with antenna := some (an * 2 + sa + 1) }
          | none => st1
        tlvWalk data fuel (off + 2) st2
      else st
    else st

/-- `_parse_tag_notification(packet, count)`: `data = packet[5:-2]`; read the
big-endian PC word, take `((pc >> 11) & 0x1F) * 2` EPC bytes, then walk the
TLV extensions.  (The source wraps the body in try/except; no operation in
this model can fail on the inputs considered.) -/
def parse_tag_notification (packet : List Nat) (count : Nat) : TagInfo :=
  let sub := packet.getD 2 0
  let data := ((packet.drop 5).dropLast).dropLast
  let base : TagInfo :=
    { count := count, raw := packet, pc := none, epc := none, ant_num := none,
      sub_ant := none, antenna := none, rssi := none, sub_cmd := sub }
  if 4 ≤ data.length then
    let pc := (data.getD 0 0) <<< 8 ||| data.getD 1 0
    let epc_len := ((pc >>> 11) &&& 0x1F) * 2
    let st1 :=
      if 0 < epc_len ∧ 2 + epc_len ≤ data.length then
        { base with epc := some ((data.drop 2).take epc_len), pc := some pc }
      else base
    tlvWalk data data.length (2 + epc_len) st1
  else base

/-- The literal payload of spec scenario S4, and the CMD=0x12 packet
carrying it (the parser never reads the trailing CRC bytes). -/
def s4_payload : List Nat :=
  [0x30, 0x00, 0x10, 0xE2, 0x80, 0x11, 0x06, 0x00, 0x00, 0x02, 0x12,
   0x34, 0x56, 0x78, 0x9A, 0xBC, 0x01, 0x00, 0x00, 0x02, 0x12]

def s4_packet : List Nat :=
  [0xAA, 0x12, 0x00, 0x00, 0x15] ++ s4_payload ++ [0x00, 0x00]

/-! ## RS-485 address framing
(firmware_analysis/final_functions.py lines 213-255) -/

/-- Modelled from the spec: the Python body of `Add_Rs485_Addr` is a `pass`
stub; the transformation below follows its docstring (which matches spec
§4.1 `rs485_wrap`): copy bytes 0-2, set bit 5 of the CMD byte, insert the
address at index 3, copy the rest, recompute the CRC over everything after
the sync byte and before the CRC field, and write it at the end. -/
def Add_Rs485_Addr (src : List Nat) (addr : Nat) : List Nat :=
  let shifted := [src.getD 0 0, src.getD 1 0 ||| 0x20, src.getD 2 0, addr] ++ src.drop 3
  let body := (shifted.dropLast).dropLast
  let c := crc16 0 (body.drop 1)
  body ++ [c >>> 8, c &&& 0xFF]

/-- Outcome of `Rs485_data_process`: 0 = process the (possibly rewritten)
packet, -3 = wrong address (dropped), -4 = too short. -/
inductive Rs485Result where
  | processed (packet : List Nat)
  | wrongAddr
  | tooShort
deriving DecidableEq

/-- Modelled from the spec: the Python body of `Rs485_data_process` is a
`pass` stub; the function below follows its docstring (which matches spec
§4.1 `rs485_strip`): a packet without the RS-485 flag passes through
unchanged; a flagged packet whose address byte (index 3) differs from
`local_addr` is dropped; otherwise the address byte is removed, bit 5 of the
CMD byte cleared, and the CRC recomputed and rewritten at the end.  The
docstring gives no numeric threshold for its "too short" return; the minimal
RS-485 frame is 8 bytes per the layout comment in the same file. -/
def Rs485_data_process (local_addr : Nat) (p : List Nat) : Rs485Result :=
  if p.length < 8 then .tooShort
  else if (p.getD 1 0 >>> 5) &&& 1 = 0 then .processed p
  else if p.getD 3 0 ≠ local_addr then .wrongAddr
  else
    let shifted := [p.getD 0 0, p.getD 1 0 &&& 0xDF, p.getD 2 0] ++ p.drop 4
    let body := (shifted.dropLast).dropLast
    let c := crc16 0 (body.drop 1)
    .processed (body ++ [c >>> 8, c &&& 0xFF])

/-! ### RS-485 lemmas -/

lemma dropLast_two_append {α : Type} (l : List α) (u v : α) :
    ((l ++ [u, v]).dropLast).dropLast = l := by
  have h : l ++ [u, v] = (l ++ [u]) ++ [v] := by simp
  rw [h, List.dropLast_concat, List.dropLast_concat]

set_option maxRecDepth 4000 in
/-- Setting bit 5 always makes the RS-485 flag test fire. -/
lemma or20_flag_all : ∀ c < 256, ((c ||| 0x20) >>> 5) &&& 1 ≠ 0 := by decide

set_option maxRecDepth 4000 in
/-- Clearing bit 5 after setting it restores a byte whose bit 5 was clear. -/
lemma or20_mask_all : ∀ c < 256, c &&& 0x20 = 0 → (c ||| 0x20) &&& 0xDF = c := by
  decide

/-- Shape of a wrapped frame: flag set, address inserted at index 3, CRC
recomputed over the address-augmented range. -/
lemma add_rs485_shape (cmd sub a hi lo ch cl : Nat) (p : List Nat) :
    Add_Rs485_Addr (HEADER :: cmd :: sub :: hi :: lo :: (p ++ [ch, cl])) a =
      ([HEADER, cmd ||| 0x20, sub, a, hi, lo] ++ p) ++
        [crc16 0 ([cmd ||| 0x20, sub, a, hi, lo] ++ p) >>> 8,
         crc16 0 ([cmd ||| 0x20, sub, a, hi, lo] ++ p) &&& 0xFF] := by
  unfold Add_Rs485_Addr
  simp only [List.getD_cons_zero, List.getD_cons_succ, List.drop_succ_cons,
    List.drop_zero]
  have hsh : [HEADER, cmd ||| 0x20, sub, a] ++ (hi :: lo :: (p ++ [ch, cl])) =
      ([HEADER, cmd ||| 0x20, sub, a, hi, lo] ++ p) ++ [ch, cl] := by simp
  rw [hsh, dropLast_two_append]
  simp

/-- Stripping a wrapped frame at the matching address restores the original
bytes up to the recomputed CRC. -/
lemma strip_wrapped (cmd sub a hi lo ch cl : Nat) (p : List Nat)
    (hcmd : cmd < 256) (hflag : cmd &&& 0x20 = 0) :
    Rs485_data_process a (([HEADER, cmd ||| 0x20, sub, a, hi, lo] ++ p) ++ [ch, cl]) =
      .processed (([HEADER, cmd, sub, hi, lo] ++ p) ++
        [crc16 0 ([cmd, sub, hi, lo] ++ p) >>> 8,
         crc16 0 ([cmd, sub, hi, lo] ++ p) &&& 0xFF]) := by
  have hform : ([HEADER, cmd ||| 0x20, sub, a, hi, lo] ++ p) ++ [ch, cl] =
      HEADER :: (cmd ||| 0x20) :: sub :: a :: hi :: lo :: (p ++ [ch, cl]) := by simp
  rw [hform]
  unfold Rs485_data_process
  rw [if_neg (by simp only [List.length_cons, List.length_append]; omega)]
  rw [if_neg (by
    simp only [List.getD_cons_zero, List.getD_cons_succ]
    exact or20_flag_all cmd hcmd)]
  rw [if_neg (by
    simp only [List.getD_cons_zero, List.getD_cons_succ]
    exact fun h => h rfl)]
  simp only [List.getD_cons_zero, List.getD_cons_succ, List.drop_succ_cons,
    List.drop_zero]
  rw [or20_mask_all cmd hcmd hflag]
  have hsh : [HEADER, cmd, sub] ++ (hi :: lo :: (p ++ [ch, cl])) =
      ([HEADER, cmd, sub, hi, lo] ++ p) ++ [ch, cl] := by simp
  rw [hsh, dropLast_two_append]
  simp

/-- Stripping a wrapped frame at a different address drops it. -/
lemma strip_wrapped_other (cmd sub a b hi lo ch cl : Nat) (p : List Nat)
    (hcmd : cmd < 256) (hne : b ≠ a) :
    Rs485_data_process b (([HEADER, cmd ||| 0x20, sub, a, hi, lo] ++ p) ++ [ch, cl]) =
      .wrongAddr := by
  have hform : ([HEADER, cmd ||| 0x20, sub, a, hi, lo] ++ p) ++ [ch, cl] =
      HEADER :: (cmd ||| 0x20) :: sub :: a :: hi :: lo :: (p ++ [ch, cl]) := by simp
  rw [hform]
  unfold Rs485_data_process
  rw [if_neg (by simp only [List.length_cons, List.length_append]; omega)]
  rw [if_neg (by
    simp only [List.getD_cons_zero, List.getD_cons_succ]
    exact or20_flag_all cmd hcmd)]
  rw [if_pos (by
    simp only [List.getD_cons_zero, List.getD_cons_succ]
    exact fun h => hne h.symm)]

/-! ## Config image factory reset
(firmware_analysis/utility_functions.py lines 260-317; the 1072-byte image
format is the one `ConfigPram` in tools/cl7206c2_tool.py reads and writes) -/

/-- `CONFIG_FILE_SIZE = 0x430` — 1072 bytes. -/
def CONFIG_FILE_SIZE : Nat := 0x430

/-- Modelled from the spec: the Python body of `config_reset` is a `pass`
stub; the image transformation below follows its docstring steps on the
in-memory image:
1. `memcpy(saved_mac, config_struct + 0x0D, 6)`;
4. `memcpy(config_struct, def_config_struct, 0x42E)` — the docstring notes
   `0x42E not 0x430 — last 2 bytes excluded`, so bytes 0x42E and 0x42F keep
   their loaded values;
5. `memcpy(config_struct + 0x0D, saved_mac, 6)`;
6. the resulting image is written back to the file.
Steps 2-3 (delete and recreate the file) do not affect the saved bytes. -/
def config_reset (def_config cfg : List Nat) : List Nat :=
  let saved_mac := (cfg.drop 0x0D).take 6
  let after_defaults := def_config.take 0x42E ++ cfg.drop 0x42E
  (after_defaults.take 0x0D) ++ saved_mac ++ after_defaults.drop 0x13

/-! ## Reboot endpoint (web/server.py lines 590-606; the client's
`CL7206C2Client.reboot` only sends the `(0x01,0x0F)` frame and never waits
for a response) -/

/-- What can go wrong inside the reboot handler's two guarded calls, once a
session exists: sending the reboot frame can raise (the device may already
have dropped the TCP connection), and closing the socket can raise. -/
structure ReaderConn where
  rebootRaises : Bool
  closeRaises : Bool
deriving DecidableEq

/-- Result of an HTTP endpoint: a JSON status string or an HTTP error code
(`HTTPException(status_code=...)`). -/
inductive EndpointResult where
  | json (status : String)
  | httpError (code : Nat)
deriving DecidableEq

/-- `POST /api/reboot`: `require_reader()` raises 400 when no session
exists; otherwise `r.reboot()` and `r.close()` are each wrapped in
`try/except` that swallows every exception, the global `reader` is set to
`None`, and `{"status": "rebooting"}` is returned.  The pair returned here
is (HTTP result, session after the call). -/
def reboot_endpoint : Option ReaderConn → EndpointResult × Option ReaderConn
  | none => (.httpError 400, none)
  | some r =>
    -- `try: result = r.reboot() except Exception: result = None` — the
    -- outcome is unused (Client.reboot returns nothing)
    let _result : Option Unit := if r.rebootRaises then none else some ()
    -- `try: r.close() except Exception: pass`
    let _closed : Bool := !r.closeRaises
    (.json "rebooting", none)

/-! ## Connect with UDP fallback (tools/cl7206c2_client.py lines 201-219;
web/server.py lines 301-319) -/

/-- Outcome of the TCP `sock.connect` attempt in `CL7206C2Client.connect`:
success, `socket.timeout`, `ConnectionRefusedError`, or any other
exception (e.g. `OSError` for an unreachable network). -/
inductive TcpOutcome where
  | ok
  | timedOut
  | refused
  | otherError
deriving DecidableEq

/-- The kind of socket the client holds after `connect`. -/
inductive SockKind where
  | tcp
  | udp
deriving DecidableEq

/-- `CL7206C2Client.connect(self)` for a client created with
`use_tcp=True` (the default): on success the TCP socket is kept; on
`socket.timeout` or `ConnectionRefusedError` the client silently switches
to UDP (`use_tcp = False`, new datagram socket) and returns normally; any
other exception propagates.  The result is `(use_tcp', socket kind)`. -/
def client_connect (use_tcp : Bool) (outcome : TcpOutcome) :
    Except Unit (Bool × SockKind) :=
  if use_tcp then
    match outcome with
    | .ok => .ok (true, .tcp)
    | .timedOut => .ok (false, .udp)
    | .refused => .ok (false, .udp)
    | .otherError => .error ()
  else .ok (false, .udp)

/-- `POST /api/connect`: builds a fresh `CL7206C2Client` (hence
`use_tcp=True`) and calls `connect()`; if that returns normally the endpoint
answers `{"status": "connected"}`, otherwise it clears the session and
raises 502. -/
def connect_endpoint (outcome : TcpOutcome) :
    EndpointResult × Option (Bool × SockKind) :=
  match client_connect true outcome with
  | .ok st => (.json "connected", some st)
  | .error _ => (.httpError 502, none)

end CL7206C2

/-! ## Claim theorems -/

open CL7206C2

/-- C2: the precomputed CRC-16 table for polynomial 0x8005 (non-reflected,
MSB-first) begins with exactly
0x0000, 0x8005, 0x800F, 0x000A, 0x801B, 0x001E, 0x0014, 0x8011. -/
theorem crc16_table_first_eight :
    crc16Table.take 8 =
      [0x0000, 0x8005, 0x800F, 0x000A, 0x801B, 0x001E, 0x0014, 0x8011] := by
  decide

/-- C1: codec round-trip — for every cmd and sub in 0..255 and every byte
payload of length 0..1023, `parse_packet (build_packet cmd sub p)` yields
exactly `(cmd, sub, p)`. -/
theorem codec_round_trip (cmd sub : Nat) (p : List Nat)
    (hcmd : cmd < 256) (hsub : sub < 256) (hbytes : ∀ b ∈ p, b < 256)
    (hlen : p.length ≤ 1023) :
    parse_packet (build_packet cmd sub p) = some (cmd, sub, p) :=
  parse_build cmd sub p (by omega)

/-- Witness for C1 at cmd = 0x01, sub = 0x06, payload `[0xDE, 0xAD]`. -/
theorem codec_round_trip_witness :
    parse_packet (build_packet 0x01 0x06 [0xDE, 0xAD]) =
      some (0x01, 0x06, [0xDE, 0xAD]) :=
  codec_round_trip 0x01 0x06 [0xDE, 0xAD] (by decide) (by decide)
    (by decide) (by decide)

/-- C3 counterexample: the buffer `AA 01 06 00 00 00 00` is a complete frame
whose CRC field (0x0000) does not equal the CRC-16 of the covered bytes
(`verify_packet` rejects it), yet `parse_packet` returns it as a successfully
parsed `(cmd, sub, payload)` triple instead of treating it as a resync. -/
theorem crc_mismatch_counterexample :
    verify_packet [0xAA, 0x01, 0x06, 0x00, 0x00, 0x00, 0x00] = false ∧
    parse_packet [0xAA, 0x01, 0x06, 0x00, 0x00, 0x00, 0x00] =
      some (0x01, 0x06, []) := by
  constructor
  · decide
  · decide

/-- C3 amended: on a complete frame whose trailing CRC field does not match
the CRC-16 of the covered bytes, `parse_packet` only logs the mismatch and
still returns the `(cmd, sub, payload)` triple; it performs no resync. -/
theorem crc_mismatch_frame_still_returned (b1 b2 b3 b4 : Nat) (rest : List Nat)
    (hcomplete : (b3 <<< 8 ||| b4) + 2 ≤ rest.length)
    (hbad : verify_packet (HEADER :: b1 :: b2 :: b3 :: b4 :: rest) = false) :
    parse_packet (HEADER :: b1 :: b2 :: b3 :: b4 :: rest) =
      some (b1, b2, rest.take (b3 <<< 8 ||| b4)) :=
  parse_complete b1 b2 b3 b4 rest hcomplete

/-- Witness for the amended C3 at the corrupt frame `AA 01 06 00 01 FF 00 00`. -/
theorem crc_mismatch_frame_still_returned_witness :
    parse_packet [0xAA, 0x01, 0x06, 0x00, 0x01, 0xFF, 0x00, 0x00] =
      some (0x01, 0x06, [0xFF]) :=
  crc_mismatch_frame_still_returned 0x01 0x06 0x00 0x01 [0xFF, 0x00, 0x00]
    (by decide) (by decide)

/-- C4 counterexample: `parse_packet` imposes no bound on the declared
length.  The complete frame built over a 1024-byte payload declares length
0x400 in its header, and the parser returns it as a parsed frame rather than
rejecting it with a resync. -/
theorem length_bound_counterexample :
    ((build_packet 0x01 0x06 (List.replicate 1024 0)).getD 3 0) <<< 8 |||
      (build_packet 0x01 0x06 (List.replicate 1024 0)).getD 4 0 = 0x400 ∧
    parse_packet (build_packet 0x01 0x06 (List.replicate 1024 0)) =
      some (0x01, 0x06, List.replicate 1024 0) := by
  constructor
  · rw [(build_packet_header_bytes 0x01 0x06 (List.replicate 1024 0)).1,
      (build_packet_header_bytes 0x01 0x06 (List.replicate 1024 0)).2,
      List.length_replicate]
    decide
  · exact parse_build 0x01 0x06 (List.replicate 1024 0)
      (by rw [List.length_replicate]; omega)

/-- C4 amended: the parser in the source has no length-bound check — for any
complete built frame whose declared payload length is ≥ 0x400 (and fits the
16-bit length field), `parse_packet` returns the frame normally. -/
theorem parse_no_length_bound (cmd sub : Nat) (p : List Nat)
    (hcmd : cmd < 256) (hsub : sub < 256) (hbytes : ∀ b ∈ p, b < 256)
    (hbig : 0x400 ≤ p.length) (hlen : p.length < 65536) :
    parse_packet (build_packet cmd sub p) = some (cmd, sub, p) :=
  parse_build cmd sub p hlen

/-- Witness for the amended C4 at a 1100-byte payload of 0x07 bytes. -/
theorem parse_no_length_bound_witness :
    parse_packet (build_packet 0x02 0x10 (List.replicate 1100 7)) =
      some (0x02, 0x10, List.replicate 1100 7) :=
  parse_no_length_bound 0x02 0x10 (List.replicate 1100 7) (by decide) (by decide)
    (by intro b hb; rw [List.eq_of_mem_replicate hb]; decide)
    (by rw [List.length_replicate]; omega) (by rw [List.length_replicate]; omega)

/-- C9: `parse_packet` is total — it returns either a triple or `None` for
every byte-string input, and it returns `None` whenever the suffix of the
input from the first 0xAA onward is shorter than 7 bytes or shorter than the
`7 + declared-length` bytes of a complete frame. -/
theorem parse_packet_total (data : List Nat) :
    (parse_packet data = none ∨ ∃ c s p, parse_packet data = some (c, s, p)) ∧
    ((data.dropWhile (fun b => b ≠ HEADER)).length < 7 →
      parse_packet data = none) ∧
    ((data.dropWhile (fun b => b ≠ HEADER)).length <
        7 + (((data.dropWhile (fun b => b ≠ HEADER)).getD 3 0) <<< 8 |||
             (data.dropWhile (fun b => b ≠ HEADER)).getD 4 0) →
      parse_packet data = none) := by
  refine ⟨?_, ?_, ?_⟩
  · cases h : parse_packet data with
    | none => exact Or.inl rfl
    | some t =>
      obtain ⟨c, s, p⟩ := t
      exact Or.inr ⟨c, s, p, rfl⟩
  · intro hshort
    by_cases h7 : data.length < 7
    · unfold parse_packet
      rw [if_pos h7]
    · rw [parse_packet_eq_tail data h7]
      by_cases ht : (data.dropWhile (fun b => b ≠ HEADER)).length = 0
      · rw [if_pos ht]
      · rw [if_neg ht]
        exact parse_tail_short _ (by omega)
  · intro hshort
    by_cases h7 : data.length < 7
    · unfold parse_packet
      rw [if_pos h7]
    · rw [parse_packet_eq_tail data h7]
      by_cases ht : (data.dropWhile (fun b => b ≠ HEADER)).length = 0
      · rw [if_pos ht]
      · rw [if_neg ht]
        exact parse_tail_short _ hshort

/-- Witness for C9: a 5-byte suffix after garbage yields `None`. -/
theorem parse_packet_total_witness :
    parse_packet [0x00, 0xAA, 0x01, 0x06, 0x00, 0x00, 0x00] = none :=
  (parse_packet_total [0x00, 0xAA, 0x01, 0x06, 0x00, 0x00, 0x00]).2.1 (by decide)

/-- C5 counterexample: on the scenario-S4 payload the server's tag parser
takes the 12 EPC bytes starting right after the PC word — beginning with the
0x10 byte — so the EPC is not the claimed
`E2 80 11 06 00 00 02 12 34 56 78 9A BC`, the TLV walk stops at the
unrecognized byte 0x9A, and no antenna or rssi field is produced at all
(the claim asserted antenna = 1 and rssi = 0x12). -/
theorem tag_parse_s4_counterexample :
    (parse_tag_notification s4_packet 1).epc =
      some [0x10, 0xE2, 0x80, 0x11, 0x06, 0x00, 0x00, 0x02, 0x12, 0x34, 0x56, 0x78] ∧
    (parse_tag_notification s4_packet 1).epc ≠
      some [0xE2, 0x80, 0x11, 0x06, 0x00, 0x00, 0x02, 0x12, 0x34, 0x56, 0x78, 0x9A, 0xBC] ∧
    (parse_tag_notification s4_packet 1).antenna = none ∧
    (parse_tag_notification s4_packet 1).rssi = none := by
  refine ⟨by decide, by decide, by decide, by decide⟩

/-- C5 amended: parsing the S4 payload yields PC 0x3000, the 12-byte EPC
`10 E2 80 11 06 00 00 02 12 34 56 78` (taken immediately after the PC word),
and no antenna, sub-antenna, ant_num or rssi fields: the byte after the EPC
is 0x9A, which is not a recognized TLV type, so the TLV walk stops before
reaching the trailing `01 00 00` and `02 12` bytes. -/
theorem tag_parse_s4 :
    (parse_tag_notification s4_packet 1).pc = some 0x3000 ∧
    (parse_tag_notification s4_packet 1).epc =
      some [0x10, 0xE2, 0x80, 0x11, 0x06, 0x00, 0x00, 0x02, 0x12, 0x34, 0x56, 0x78] ∧
    (parse_tag_notification s4_packet 1).ant_num = none ∧
    (parse_tag_notification s4_packet 1).sub_ant = none ∧
    (parse_tag_notification s4_packet 1).antenna = none ∧
    (parse_tag_notification s4_packet 1).rssi = none ∧
    (parse_tag_notification s4_packet 1).sub_cmd = 0x00 := by
  refine ⟨by decide, by decide, by decide, by decide, by decide, by decide, by decide⟩

/-- C6: RS-485 round-trip — wrapping a well-formed standard frame (built by
the codec, so its CMD byte is a byte with the RS-485 flag bit clear) with
address `a` and stripping at `a` returns the frame unchanged, and stripping
at any `b ≠ a` drops the packet (`wrongAddr`, the firmware's -3). -/
theorem rs485_round_trip (cmd sub a b : Nat) (p : List Nat)
    (hcmd : cmd < 256) (hflag : cmd &&& 0x20 = 0) :
    Rs485_data_process a (Add_Rs485_Addr (build_packet cmd sub p) a) =
      .processed (build_packet cmd sub p) ∧
    (b ≠ a →
      Rs485_data_process b (Add_Rs485_Addr (build_packet cmd sub p) a) =
        .wrongAddr) := by
  have hbuild : build_packet cmd sub p =
      HEADER :: cmd :: sub :: ((p.length >>> 8) &&& 0xFF) :: (p.length &&& 0xFF) ::
        (p ++ [crc16 0 ([cmd, sub, (p.length >>> 8) &&& 0xFF, p.length &&& 0xFF] ++ p) >>> 8,
               crc16 0 ([cmd, sub, (p.length >>> 8) &&& 0xFF, p.length &&& 0xFF] ++ p) &&& 0xFF]) := by
    simp [build_packet]
  constructor
  · rw [hbuild, add_rs485_shape, strip_wrapped _ _ _ _ _ _ _ _ hcmd hflag]
    simp
  · intro hne
    rw [hbuild, add_rs485_shape, strip_wrapped_other _ _ _ _ _ _ _ _ _ hcmd hne]

/-- Witness for C6 at the get-MAC frame, address 0x12, foreign address 0x13. -/
theorem rs485_round_trip_witness :
    Rs485_data_process 0x12 (Add_Rs485_Addr (build_packet 0x01 0x06 []) 0x12) =
      .processed (build_packet 0x01 0x06 []) ∧
    Rs485_data_process 0x13 (Add_Rs485_Addr (build_packet 0x01 0x06 []) 0x12) =
      .wrongAddr :=
  ⟨(rs485_round_trip 0x01 0x06 0x12 0x13 [] (by decide) (by decide)).1,
   (rs485_round_trip 0x01 0x06 0x12 0x13 [] (by decide) (by decide)).2 (by decide)⟩

set_option maxRecDepth 40000 in
/-- C7 counterexample: factory reset does *not* restore every non-MAC byte
from the defaults blob.  With an all-zero defaults blob and an all-one
loaded image, the saved byte at offset 0x42E is 1 (kept from the loaded
image, because the reset copies only 0x42E of the 0x430 defaults bytes)
while the defaults blob holds 0 there — and 0x42E is outside the MAC range
0x0D..0x12. -/
theorem config_reset_counterexample :
    (config_reset (List.replicate 1072 0) (List.replicate 1072 1)).getD 0x42E 0 = 1 ∧
    (List.replicate 1072 0).getD 0x42E 0 = 0 ∧ ¬ (0x0D ≤ 0x42E ∧ 0x42E ≤ 0x12) := by
  refine ⟨by decide, by decide, by decide⟩

/-- C7 amended: on a 1072-byte image, factory reset keeps the six MAC bytes
at 0x0D..0x12 *and* the final two bytes at 0x42E..0x42F from the loaded
image, and overwrites every other byte with the corresponding byte of the
defaults blob. -/
theorem config_reset_effect (def_config cfg : List Nat)
    (hd : def_config.length = 1072) (hc : cfg.length = 1072) :
    (config_reset def_config cfg).take 0x0D = def_config.take 0x0D ∧
    ((config_reset def_config cfg).drop 0x0D).take 6 = (cfg.drop 0x0D).take 6 ∧
    ((config_reset def_config cfg).drop 0x13).take 0x41B =
      (def_config.drop 0x13).take 0x41B ∧
    (config_reset def_config cfg).drop 0x42E = cfg.drop 0x42E := by
  have key : config_reset def_config cfg =
      ((def_config.take 0x42E ++ cfg.drop 0x42E).take 0x0D ++
        (cfg.drop 0x0D).take 6) ++
        (def_config.take 0x42E ++ cfg.drop 0x42E).drop 0x13 := rfl
  have hdt : (def_config.take 0x42E).length = 0x42E :=
    List.length_take_of_le (by omega)
  have hA : ((def_config.take 0x42E ++ cfg.drop 0x42E).take 0x0D).length = 0x0D := by
    apply List.length_take_of_le
    rw [List.length_append, hdt]
    omega
  have hB : ((cfg.drop 0x0D).take 6).length = 6 := by
    apply List.length_take_of_le
    rw [List.length_drop, hc]
    omega
  have hAB : ((def_config.take 0x42E ++ cfg.drop 0x42E).take 0x0D ++
      (cfg.drop 0x0D).take 6).length = 0x13 := by
    rw [List.length_append, hA, hB]
  have hD19 : ((def_config.take 0x42E).drop 0x13).length = 0x41B := by
    rw [List.length_drop, hdt]
  refine ⟨?_, ?_, ?_, ?_⟩
  · rw [key, List.take_append_of_le_length (by omega),
      List.take_append_of_le_length (by omega), List.take_take, Nat.min_self,
      List.take_append_of_le_length (by omega), List.take_take]
    norm_num
  · rw [key, List.drop_append_of_le_length (by omega), List.drop_left' hA,
      List.take_left' hB]
  · rw [key, List.drop_left' hAB, List.drop_append_of_le_length (by omega),
      List.take_append_of_le_length (by omega), List.drop_take, List.take_take]
    norm_num
  · rw [key]
    have hsplit :
        ((((def_config.take 0x42E ++ cfg.drop 0x42E).take 0x0D ++
            (cfg.drop 0x0D).take 6) ++
            (def_config.take 0x42E ++ cfg.drop 0x42E).drop 0x13).drop 0x13).drop 0x41B =
        (((def_config.take 0x42E ++ cfg.drop 0x42E).take 0x0D ++
            (cfg.drop 0x0D).take 6) ++
            (def_config.take 0x42E ++ cfg.drop 0x42E).drop 0x13).drop 0x42E := by
      rw [List.drop_drop]
    rw [← hsplit, List.drop_left' hAB, List.drop_drop,
      show (0x13 + 0x41B : Nat) = 0x42E from by norm_num,
      List.drop_left' hdt]

/-- Witness for the amended C7 on concrete all-zero/all-one images. -/
theorem config_reset_effect_witness :
    (config_reset (List.replicate 1072 0) (List.replicate 1072 1)).drop 0x42E =
      (List.replicate 1072 1).drop 0x42E :=
  (config_reset_effect (List.replicate 1072 0) (List.replicate 1072 1)
    (by rw [List.length_replicate]) (by rw [List.length_replicate])).2.2.2

/-- C8: whenever a reader session exists, `POST /api/reboot` answers the
JSON status "rebooting" and releases the session, regardless of whether the
reboot send or the socket close raised (the device dropping TCP before any
response is the `rebootRaises = true` case); no Transport error reaches the
HTTP caller. -/
theorem reboot_endpoint_never_errors (r : ReaderConn) :
    reboot_endpoint (some r) = (.json "rebooting", none) := rfl

/-- Witness for C8 at a session whose reboot send raises (connection already
closed by the device). -/
theorem reboot_endpoint_never_errors_witness :
    reboot_endpoint (some ⟨true, true⟩) = (.json "rebooting", none) :=
  reboot_endpoint_never_errors ⟨true, true⟩

/-- C10: when the TCP connect attempt times out or is refused,
`CL7206C2Client.connect` does not raise — it silently switches the client to
UDP mode and returns — and `POST /api/connect` therefore reports
`{"status": "connected"}` (keeping the session) instead of the 502 failure
response. -/
theorem connect_udp_fallback (outcome : TcpOutcome)
    (h : outcome = .timedOut ∨ outcome = .refused) :
    client_connect true outcome = .ok (false, .udp) ∧
    connect_endpoint outcome = (.json "connected", some (false, .udp)) := by
  rcases h with h | h <;> subst h <;> exact ⟨rfl, rfl⟩

/-- Witness for C10 at a refused TCP connection. -/
theorem connect_udp_fallback_witness :
    client_connect true .refused = .ok (false, .udp) ∧
    connect_endpoint .refused = (.json "connected", some (false, .udp)) :=
  connect_udp_fallback .refused (Or.inr rfl)
